import Mathlib

/-!
Shallow embedding of the Rasa custom-action handlers in `actions.py`
(station/payment validators, booking processor, ticket retrieval), together
with theorems settling the specification claims about them.

Modelling conventions:
* Python strings are Lean `String`s (both sequences of Unicode code points;
  Python string comparison and Lean `String` comparison are both
  lexicographic on code points).
* `random.randint(lo, hi)` is modelled as a function of an explicit random
  seed `r`, mapping `r` into the inclusive range `[lo, hi]`.
* `datetime.now().strftime(...)` is modelled as an explicit `now : String`
  input.
* The global dictionary `TICKET_DB` is modelled as a total function
  `String → List Ticket` with default `[]` (Python code only ever reads it
  through `.get(user_id, [])` or initialises a missing key to `[]`).
* A dispatcher's `utter_message` calls are collected into a `List String`,
  and the returned Rasa events into a `List Event`.
* Python `str.lower` is modelled with `Char.toLower` (all strings the
  claims touch are ASCII), and `m in s` (substring test) as the decidable
  proposition `m.data <:+: s.data`.
-/

namespace RasaActions

/-- Python `str.lower()` restricted to its ASCII behaviour: lower-case every
character. -/
def strLower (s : String) : String := ⟨s.data.map Char.toLower⟩

/-- `is_valid_station` from `actions.py`: `return len(station_name) > 3`.
The raw length of the input is compared with 3; there is no trimming. -/
def is_valid_station (station_name : String) : Bool :=
  decide (3 < station_name.length)

/-- Modelled from the spec: the "trimmed input" mentioned by the claim about
`is_valid_station` (the code itself never trims). Strip whitespace from both
ends, as Python `str.strip()` would. -/
def strTrim (s : String) : String :=
  ⟨((s.data.dropWhile Char.isWhitespace).reverse.dropWhile Char.isWhitespace).reverse⟩

/-- The message uttered when the destination duplicates the source
(`validate_destination`, rejection branch for equal stations). -/
def sameStationMsg : String :=
  "Source and Destination stations cannot be the same. Please specify a different destination."

/-- The message uttered when the destination fails station validation. -/
def invalidDestMsg (v : String) : String :=
  "I don\x27t recognize \x27" ++ v ++ "\x27 as a valid destination station. Please try another name."

/-- `validate_destination` from `ValidateTicketBookingForm`, as a function of
the already-accepted `source` slot and the candidate `slot_value`.  Returns
the value stored back into the `destination` slot (`none` models Python
`None`) together with the uttered messages. -/
def validate_destination (source : Option String) (slot_value : String) :
    Option String × List String :=
  if is_valid_station slot_value then
    match source with
    | some s =>
      if s ≠ "" ∧ strLower s = strLower slot_value then
        (none, [sameStationMsg])
      else
        (some slot_value, [])
    | none => (some slot_value, [])
  else
    (none, [invalidDestMsg slot_value])

/-- The fixed keyword list of `validate_payment_method`. -/
def supported_methods : List String :=
  ["upi", "card", "credit card", "debit card", "net banking", "google pay"]

/-- The rejection message of `validate_payment_method`. -/
def unsupportedPaymentMsg : String :=
  "I\x27m sorry, we only support **UPI, Credit/Debit Card, or Net Banking**. Please choose one of these."

/-- `validate_payment_method` from `ValidateTicketBookingForm`:
`any(method in slot_value.lower() for method in supported_methods)`. Returns
the value stored back into the `payment_method` slot and the uttered
messages. -/
def validate_payment_method (slot_value : String) : Option String × List String :=
  if supported_methods.any
      (fun method => decide (method.data <:+: (strLower slot_value).data)) then
    (some slot_value, [])
  else
    (none, [unsupportedPaymentMsg])

/-- A Rasa event returned by an action; only `SlotSet(slot, value)` occurs in
this code.  `none` models setting the slot to Python `None` (absent). -/
inductive Event where
  | slotSet (slot : String) (value : Option String)
deriving DecidableEq, Repr

/-- The tracker state an action reads: the sender id, the three booking
slots (absent = Python `None`), and the name of the latest message's
recognized intent (`tracker.latest_message["intent"]["name"]`, absent when
missing). -/
structure Tracker where
  sender_id : String
  source : Option String
  destination : Option String
  payment_method : Option String
  latest_intent : Option String
deriving DecidableEq, Repr

/-- A ticket record as appended to `TICKET_DB` by `ActionProcessBooking`:
the `source`/`destination`/`payment` fields hold the raw slot values (which
Python could store as `None`), the other fields are always strings. -/
structure Ticket where
  pnr : String
  source : Option String
  destination : Option String
  payment : Option String
  booked_on : String
  status : String
deriving DecidableEq, Repr

/-- The ticket store `TICKET_DB`: user id to that user's list of tickets
(insertion order), `[]` when the user has none. -/
def TicketDB : Type := String → List Ticket

/-- Python `f"{x}"` on a value that is a string or `None`. -/
def pyStr : Option String → String
  | none => "None"
  | some s => s

/-- `random.randint(lo, hi)` (inclusive bounds) as a function of a random
seed `r`. -/
def randint (lo hi r : Nat) : Nat := lo + r % (hi - lo + 1)

/-- Python `str(n)` for a natural number: decimal digits, most significant
first (faithful for every `n > 0`; all uses here have `n ≥ 10^9`). -/
def natToDecimalString (n : Nat) : String :=
  ⟨((Nat.digits 10 n).map Nat.digitChar).reverse⟩

/-- The four `SlotSet(..., None)` events returned by both branches of
`ActionProcessBooking.run`. -/
def resetSlotsEvents : List Event :=
  [Event.slotSet "source" none, Event.slotSet "destination" none,
   Event.slotSet "payment_method" none, Event.slotSet "payment_confirmed" none]

/-- The cancellation message of `ActionProcessBooking.run`. -/
def cancelMessage : String :=
  "Ticket booking cancelled. Is there anything else I can help you with?"

/-- The PNR generated by `ActionProcessBooking.run`:
`str(random.randint(1000000000, 9999999999))`. -/
def pnrOf (r : Nat) : String :=
  natToDecimalString (randint 1000000000 9999999999 r)

/-- The ticket record appended by the confirmed branch of
`ActionProcessBooking.run`. -/
def bookedTicket (tr : Tracker) (r : Nat) (now : String) : Ticket :=
  { pnr := pnrOf r
    source := tr.source
    destination := tr.destination
    payment := tr.payment_method
    booked_on := now
    status := "CONFIRMED" }

/-- The success message of the confirmed branch of
`ActionProcessBooking.run`. -/
def successMessage (tr : Tracker) (r : Nat) : String :=
  "**Booking Successful!** Your reserved ticket is confirmed.\n\n**PNR:** "
    ++ pnrOf r ++ "\n**Route:** " ++ pyStr tr.source ++ " to "
    ++ pyStr tr.destination ++ "\n**Payment Method:** "
    ++ pyStr tr.payment_method ++ "\n"

/-- `ActionProcessBooking.run`: if the latest intent is exactly `"affirm"`,
generate a PNR, append a ticket for `tracker.sender_id`, utter the success
message and reset the four slots; otherwise utter the cancellation message
and reset the four slots.  Result: (updated store, returned events, uttered
messages). -/
def processBookingRun (tr : Tracker) (db : TicketDB) (r : Nat) (now : String) :
    TicketDB × List Event × List String :=
  if tr.latest_intent = some "affirm" then
    (fun u => if u = tr.sender_id then db u ++ [bookedTicket tr r now] else db u,
     resetSlotsEvents, [successMessage tr r])
  else
    (db, resetSlotsEvents, [cancelMessage])

/-- Insert a ticket into a list already sorted by `booked_on` descending,
keeping it sorted; ties keep the inserted (earlier) element first, matching
the stability of Python `list.sort(key=..., reverse=True)`. -/
def insertDesc (r : Ticket) : List Ticket → List Ticket
  | [] => [r]
  | x :: xs =>
    if x.booked_on ≤ r.booked_on then r :: x :: xs else x :: insertDesc r xs

/-- `user_tickets.sort(key=lambda x: x["booked_on"], reverse=True)`: stable
sort by the `booked_on` string, descending. -/
def sortDesc : List Ticket → List Ticket
  | [] => []
  | x :: xs => insertDesc x (sortDesc xs)

/-- `ticket["booked_on"].split(" ")[0]`: the prefix of the timestamp before
its first space (the whole string when there is no space). -/
def dateOf (s : String) : String :=
  ⟨s.data.takeWhile (fun c => c != ' ')⟩

/-- The numbered block rendered for the ticket at (0-based) index `i`. -/
def renderTicket (i : Nat) (t : Ticket) : String :=
  "\n--- Ticket " ++ toString (i + 1) ++ " ---\n**PNR:** " ++ t.pnr
    ++ "\n**Route:** " ++ pyStr t.source ++ " to " ++ pyStr t.destination
    ++ "\n**Booked On:** " ++ dateOf t.booked_on

/-- The fixed message uttered when the user has no tickets. -/
def noTicketsMsg : String :=
  "You currently have no unreserved tickets booked with me."

/-- The header line of the ticket listing. -/
def retrieveHeader : String :=
  "Here are your recent unreserved ticket bookings:"

/-- `ActionRetrieveTickets.run`: look up the sender's tickets; if none,
utter the fixed message and return no events.  Otherwise sort the stored
list in place by `booked_on` descending (the store keeps the sorted order),
render one block per ticket and utter the joined message.  Result:
(updated store, returned events, uttered messages). -/
def retrieveTicketsRun (tr : Tracker) (db : TicketDB) :
    TicketDB × List Event × List String :=
  if db tr.sender_id = [] then
    (db, [], [noTicketsMsg])
  else
    (fun u => if u = tr.sender_id then sortDesc (db tr.sender_id) else db u,
     [],
     [String.intercalate "\n"
        (retrieveHeader ::
          (sortDesc (db tr.sender_id)).enum.map (fun p => renderTicket p.1 p.2))])

/-! ## Helper lemmas -/

/-- Mapping a function over both lists preserves the infix relation. -/
theorem isInfix_map {α β : Type} (f : α → β) {l₁ l₂ : List α}
    (h : l₁ <:+: l₂) : l₁.map f <:+: l₂.map f := by
  obtain ⟨p, q, rfl⟩ := h
  exact ⟨p.map f, q.map f, by simp⟩

/-- `insertDesc` produces a permutation of consing the element. -/
theorem insertDesc_perm (r : Ticket) (l : List Ticket) :
    List.Perm (insertDesc r l) (r :: l) := by
  induction l with
  | nil => exact List.Perm.refl _
  | cons x xs ih =>
    by_cases h : x.booked_on ≤ r.booked_on
    · simp [insertDesc, h]
    · simp only [insertDesc, if_neg h]
      exact (List.Perm.cons x ih).trans (List.Perm.swap r x xs)

/-- `insertDesc` preserves sortedness by `booked_on` descending. -/
theorem insertDesc_pairwise (r : Ticket) (l : List Ticket)
    (h : l.Pairwise (fun a b => b.booked_on ≤ a.booked_on)) :
    (insertDesc r l).Pairwise (fun a b => b.booked_on ≤ a.booked_on) := by
  induction l with
  | nil => simp [insertDesc]
  | cons x xs ih =>
    rw [List.pairwise_cons] at h
    obtain ⟨hx, hxs⟩ := h
    by_cases hc : x.booked_on ≤ r.booked_on
    · simp only [insertDesc, if_pos hc]
      rw [List.pairwise_cons]
      refine ⟨?_, List.pairwise_cons.mpr ⟨hx, hxs⟩⟩
      intro b hb
      rcases List.mem_cons.mp hb with rfl | hb2
      · exact hc
      · exact le_trans (hx b hb2) hc
    · simp only [insertDesc, if_neg hc]
      rw [List.pairwise_cons]
      refine ⟨?_, ih hxs⟩
      intro b hb
      rcases List.mem_cons.mp ((insertDesc_perm r xs).mem_iff.mp hb) with rfl | hb3
      · exact le_of_lt (not_le.mp hc)
      · exact hx b hb3

/-- The retrieval sort returns a permutation of its input. -/
theorem sortDesc_perm (l : List Ticket) : List.Perm (sortDesc l) l := by
  induction l with
  | nil => exact List.Perm.refl _
  | cons x xs ih => exact (insertDesc_perm x (sortDesc xs)).trans (List.Perm.cons x ih)

/-- The retrieval sort output is sorted by `booked_on` descending. -/
theorem sortDesc_pairwise (l : List Ticket) :
    (sortDesc l).Pairwise (fun a b => b.booked_on ≤ a.booked_on) := by
  induction l with
  | nil => simp [sortDesc]
  | cons x xs ih => exact insertDesc_pairwise x (sortDesc xs) ih

/-- Sorting three tickets with strictly increasing timestamps reverses them. -/
theorem sortDesc_three (r1 r2 r3 : Ticket)
    (h12 : r1.booked_on < r2.booked_on) (h23 : r2.booked_on < r3.booked_on) :
    sortDesc [r1, r2, r3] = [r3, r2, r1] := by
  have h12n : ¬ r2.booked_on ≤ r1.booked_on := not_le.mpr h12
  have h23n : ¬ r3.booked_on ≤ r2.booked_on := not_le.mpr h23
  have h13n : ¬ r3.booked_on ≤ r1.booked_on := not_le.mpr (lt_trans h12 h23)
  simp [sortDesc, insertDesc, h12n, h23n, h13n]

/-- `takeWhile (not a space)` cuts a space-free block off at the first
space. -/
theorem takeWhile_ne_space (l m : List Char) (h : ∀ c ∈ l, c ≠ ' ') :
    (l ++ ' ' :: m).takeWhile (fun c => c != ' ') = l := by
  induction l with
  | nil => simp
  | cons a as ih =>
    have ha : a ≠ ' ' := h a (by simp)
    simp [List.takeWhile_cons, ha, ih (fun c hc => h c (by simp [hc]))]

/-- `dateOf` truncates a timestamp at its first space: on a space-free date
part followed by a space and the rest, it returns exactly the date part. -/
theorem dateOf_before_space (d rest : String) (h : ∀ c ∈ d.data, c ≠ ' ') :
    dateOf (d ++ " " ++ rest) = d := by
  have hdata : (d ++ " " ++ rest).data = d.data ++ ' ' :: rest.data := by
    simp [String.data_append]
  have : dateOf (d ++ " " ++ rest) = ⟨(d.data ++ ' ' :: rest.data).takeWhile (fun c => c != ' ')⟩ := by
    simp [dateOf, hdata]
  rw [this, takeWhile_ne_space d.data rest.data h]

/-- The range of the modelled `random.randint(1000000000, 9999999999)`. -/
theorem randint_pnr_bounds (r : Nat) :
    1000000000 ≤ randint 1000000000 9999999999 r ∧
      randint 1000000000 9999999999 r < 10000000000 := by
  have hm : r % 9000000000 < 9000000000 := Nat.mod_lt _ (by norm_num)
  unfold randint
  omega

/-- Decimal digit characters are digit characters. -/
theorem digitChar_isDigit {d : Nat} (h : d < 10) : (Nat.digitChar d).isDigit = true := by
  interval_cases d <;> decide

/-- Numbers in `[10^9, 10^10)` print as 10 characters. -/
theorem natToDecimalString_length_ten (n : Nat)
    (h1 : 1000000000 ≤ n) (h2 : n < 10000000000) :
    (natToDecimalString n).length = 10 := by
  have hn : n ≠ 0 := by omega
  have hlen : (Nat.digits 10 n).length = Nat.log 10 n + 1 :=
    Nat.digits_len 10 n (by norm_num) hn
  have e1 : (10 : Nat) ^ 9 = 1000000000 := by norm_num
  have e2 : (10 : Nat) ^ (9 + 1) = 10000000000 := by norm_num
  have hlog : Nat.log 10 n = 9 :=
    Nat.log_eq_of_pow_le_of_lt_pow (e1 ▸ h1) (e2 ▸ h2)
  have hL : (natToDecimalString n).length = (Nat.digits 10 n).length := by
    simp [natToDecimalString, String.length]
  rw [hL, hlen, hlog]

/-- Every character printed for a natural number is a decimal digit. -/
theorem natToDecimalString_all_digits (n : Nat) :
    ∀ c ∈ (natToDecimalString n).data, c.isDigit = true := by
  intro c hc
  have hc2 : c ∈ ((Nat.digits 10 n).map Nat.digitChar).reverse := hc
  rw [List.mem_reverse, List.mem_map] at hc2
  obtain ⟨d, hd, rfl⟩ := hc2
  exact digitChar_isDigit (Nat.digits_lt_base (by norm_num) hd)

/-- Every generated PNR is 10 characters long. -/
theorem pnrOf_length (r : Nat) : (pnrOf r).length = 10 := by
  obtain ⟨h1, h2⟩ := randint_pnr_bounds r
  exact natToDecimalString_length_ten _ h1 h2

/-- Every generated PNR consists of decimal digits only. -/
theorem pnrOf_digits (r : Nat) : ∀ c ∈ (pnrOf r).data, c.isDigit = true :=
  natToDecimalString_all_digits _

/-! ## Claim theorems -/

/-- Claim C1, counterexample: the claim says `is_valid_station` accepts iff
the trimmed length exceeds 3, so the whitespace-padded short name `"   a"`
(raw length 4, trimmed length 1) should be rejected; the code accepts it,
refuting the claim at this input. -/
theorem C1_counterexample :
    ¬ (is_valid_station "   a" = true ↔ 3 < (strTrim "   a").length) := by
  decide

/-- Claim C1, amended: for every input string, `is_valid_station` returns
true if and only if the raw (untrimmed) length of the input exceeds 3
characters; no trimming is performed, so a whitespace-padded short name is
accepted. -/
theorem C1_amended_raw_length (s : String) :
    is_valid_station s = true ↔ 3 < s.length := by
  simp [is_valid_station]

/-- Claim C9: for all strings of length at most 3, `is_valid_station`
returns false, and for all strings of length greater than 3 it returns true,
the length being that of the raw input; in particular "NYC" is rejected and
"Paris" is accepted. -/
theorem C9_station_length_threshold :
    (∀ s : String, s.length ≤ 3 → is_valid_station s = false) ∧
    (∀ s : String, 3 < s.length → is_valid_station s = true) ∧
    is_valid_station "NYC" = false ∧ is_valid_station "Paris" = true := by
  refine ⟨fun s h => ?_, fun s h => ?_, by decide, by decide⟩
  · simp only [is_valid_station, decide_eq_false_iff_not]
    omega
  · simp [is_valid_station, h]

/-- Witness for C9 at the concrete inputs "NYC" and "Lond". -/
theorem C9_witness :
    is_valid_station "NYC" = false ∧ is_valid_station "Lond" = true :=
  ⟨C9_station_length_threshold.1 "NYC" (by decide),
   C9_station_length_threshold.2.1 "Lond" (by decide)⟩

/-- Claim C4: `validate_payment_method` accepts an input iff its lower-cased
form contains one of the six fixed keywords as a substring; consequently any
text containing "debit card" in any case is accepted, and "bitcoin" is
rejected. -/
theorem C4_payment_keywords (s : String) :
    ((validate_payment_method s).1 = some s ↔
      ∃ m ∈ supported_methods, m.data <:+: (strLower s).data) ∧
    ((∃ t, t <:+: s.data ∧ t.map Char.toLower = "debit card".data) →
      (validate_payment_method s).1 = some s) ∧
    (validate_payment_method "bitcoin").1 = none := by
  have hany : supported_methods.any
      (fun m => decide (m.data <:+: (strLower s).data)) = true
      ↔ ∃ m ∈ supported_methods, m.data <:+: (strLower s).data := by
    simp [List.any_eq_true]
  have hiff : (validate_payment_method s).1 = some s ↔
      ∃ m ∈ supported_methods, m.data <:+: (strLower s).data := by
    rw [← hany]
    unfold validate_payment_method
    by_cases hc : supported_methods.any
        (fun m => decide (m.data <:+: (strLower s).data)) = true
    · simp [hc]
    · simp [hc]
  refine ⟨hiff, ?_, by decide⟩
  rintro ⟨t, htinf, htlow⟩
  apply hiff.mpr
  refine ⟨"debit card", by simp [supported_methods], ?_⟩
  have h2 := isInfix_map Char.toLower htinf
  rw [htlow] at h2
  exact h2

/-- Witness for C4 at the concrete input "pay with DeBit CArd" (which
contains "debit card" in mixed case). -/
theorem C4_witness :
    (validate_payment_method "pay with DeBit CArd").1 = some "pay with DeBit CArd" :=
  (C4_payment_keywords "pay with DeBit CArd").2.1
    ⟨"DeBit CArd".data, ⟨"pay with ".data, [], by decide⟩, by decide⟩

/-- Claim C5: for a candidate destination passing station validation,
`validate_destination` rejects it (clears the slot and utters the corrective
message) iff the accepted source slot is non-empty and equals the candidate
case-insensitively; otherwise the candidate is accepted unchanged. -/
theorem C5_destination_duplicate (source : Option String) (cand : String)
    (hv : is_valid_station cand = true) :
    (validate_destination source cand = (none, [sameStationMsg]) ↔
      ∃ s, source = some s ∧ s ≠ "" ∧ strLower s = strLower cand) ∧
    ((¬ ∃ s, source = some s ∧ s ≠ "" ∧ strLower s = strLower cand) →
      validate_destination source cand = (some cand, [])) := by
  unfold validate_destination
  cases source with
  | none => simp [hv]
  | some s =>
    by_cases hc : s ≠ "" ∧ strLower s = strLower cand
    · simp [hv, hc]
    · simp [hv, hc]

/-- Witness for C5: with source "London" accepted, the candidate "LONDON"
(valid as a station) is rejected as a duplicate route. -/
theorem C5_witness :
    validate_destination (some "London") "LONDON" = (none, [sameStationMsg]) :=
  (C5_destination_duplicate (some "London") "LONDON" (by decide)).1.mpr
    ⟨"London", rfl, by decide, by decide⟩

/-- Claim C2: with latest intent "affirm" and all three slots set, the run
appends exactly one ticket to the invoking user, with status "CONFIRMED", a
10-character numeric PNR and the slot values copied in; the returned events
reset the four transient slots to absent, and no other user changes. -/
theorem C2_confirmed_appends_one (tr : Tracker) (db : TicketDB) (r : Nat)
    (now : String) (src dst pm : String)
    (hi : tr.latest_intent = some "affirm")
    (hs : tr.source = some src) (hd : tr.destination = some dst)
    (hp : tr.payment_method = some pm) :
    (processBookingRun tr db r now).1 tr.sender_id =
      db tr.sender_id ++
        [{ pnr := pnrOf r, source := some src, destination := some dst,
           payment := some pm, booked_on := now, status := "CONFIRMED" }] ∧
    (pnrOf r).length = 10 ∧
    (∀ c ∈ (pnrOf r).data, c.isDigit = true) ∧
    (processBookingRun tr db r now).2.1 =
      [Event.slotSet "source" none, Event.slotSet "destination" none,
       Event.slotSet "payment_method" none, Event.slotSet "payment_confirmed" none] ∧
    (∀ u, u ≠ tr.sender_id → (processBookingRun tr db r now).1 u = db u) := by
  refine ⟨?_, pnrOf_length r, pnrOf_digits r, ?_, ?_⟩
  · simp [processBookingRun, hi, bookedTicket, hs, hd, hp]
  · simp [processBookingRun, hi, resetSlotsEvents]
  · intro u hu
    simp [processBookingRun, hi, hu]

/-- The empty ticket store. -/
def emptyDB : TicketDB := fun _ => []

/-- A tracker whose user just affirmed a fully-filled booking. -/
def affirmTracker : Tracker :=
  { sender_id := "user1", source := some "Paris", destination := some "Berlin",
    payment_method := some "UPI", latest_intent := some "affirm" }

/-- Witness for C2 at a concrete affirming tracker, empty store, seed 5 and
a fixed timestamp. -/
theorem C2_witness :
    (processBookingRun affirmTracker emptyDB 5 "2024-05-01 10:00:00").1 affirmTracker.sender_id =
      emptyDB affirmTracker.sender_id ++
        [{ pnr := pnrOf 5, source := some "Paris", destination := some "Berlin",
           payment := some "UPI", booked_on := "2024-05-01 10:00:00", status := "CONFIRMED" }] ∧
    (pnrOf 5).length = 10 ∧
    (∀ c ∈ (pnrOf 5).data, c.isDigit = true) ∧
    (processBookingRun affirmTracker emptyDB 5 "2024-05-01 10:00:00").2.1 =
      [Event.slotSet "source" none, Event.slotSet "destination" none,
       Event.slotSet "payment_method" none, Event.slotSet "payment_confirmed" none] ∧
    (∀ u, u ≠ affirmTracker.sender_id →
      (processBookingRun affirmTracker emptyDB 5 "2024-05-01 10:00:00").1 u = emptyDB u) :=
  C2_confirmed_appends_one affirmTracker emptyDB 5 "2024-05-01 10:00:00"
    "Paris" "Berlin" "UPI" rfl rfl rfl rfl

/-- Claim C3: when the latest intent is not "affirm", the run leaves the
ticket store completely unchanged, utters the cancellation message, and its
events reset the four transient slots to absent. -/
theorem C3_declined_unchanged (tr : Tracker) (db : TicketDB) (r : Nat) (now : String)
    (hi : tr.latest_intent ≠ some "affirm") :
    processBookingRun tr db r now =
      (db,
       [Event.slotSet "source" none, Event.slotSet "destination" none,
        Event.slotSet "payment_method" none, Event.slotSet "payment_confirmed" none],
       [cancelMessage]) := by
  simp [processBookingRun, hi, resetSlotsEvents]

/-- A tracker whose user denied the confirmation. -/
def denyTracker : Tracker :=
  { sender_id := "user1", source := some "Paris", destination := some "Berlin",
    payment_method := some "UPI", latest_intent := some "deny" }

/-- Witness for C3 at a concrete denying tracker. -/
theorem C3_witness :
    processBookingRun denyTracker emptyDB 5 "2024-05-01 10:00:00" =
      (emptyDB,
       [Event.slotSet "source" none, Event.slotSet "destination" none,
        Event.slotSet "payment_method" none, Event.slotSet "payment_confirmed" none],
       [cancelMessage]) :=
  C3_declined_unchanged denyTracker emptyDB 5 "2024-05-01 10:00:00" (by decide)

/-- Claim C10: the run commits a booking exactly when the latest intent is
the string "affirm"; every other value (including an absent intent) takes
the cancellation branch, which appends nothing and resets the four slots.
There is no third outcome. -/
theorem C10_affirm_dichotomy (tr : Tracker) (db : TicketDB) (r : Nat) (now : String) :
    (tr.latest_intent = some "affirm" ∧
      processBookingRun tr db r now =
        ((fun u => if u = tr.sender_id then db u ++ [bookedTicket tr r now] else db u),
         resetSlotsEvents, [successMessage tr r])) ∨
    (tr.latest_intent ≠ some "affirm" ∧
      processBookingRun tr db r now = (db, resetSlotsEvents, [cancelMessage])) := by
  by_cases hi : tr.latest_intent = some "affirm"
  · exact Or.inl ⟨hi, by simp [processBookingRun, hi]⟩
  · exact Or.inr ⟨hi, by simp [processBookingRun, hi]⟩

/-- Claim C8: for a user with no stored tickets, the run utters exactly the
fixed "no tickets" message, renders no ticket blocks, returns no events and
leaves the store unchanged. -/
theorem C8_retrieve_empty (tr : Tracker) (db : TicketDB)
    (h : db tr.sender_id = []) :
    retrieveTicketsRun tr db = (db, [], [noTicketsMsg]) := by
  simp [retrieveTicketsRun, h]

/-- A tracker with no booking in progress, used for retrieval runs. -/
def plainTracker : Tracker :=
  { sender_id := "user0", source := none, destination := none,
    payment_method := none, latest_intent := none }

/-- Witness for C8 on the empty store. -/
theorem C8_witness :
    retrieveTicketsRun plainTracker emptyDB = (emptyDB, [], [noTicketsMsg]) :=
  C8_retrieve_empty plainTracker emptyDB rfl

/-- Claim C6: for a user storing three tickets with increasing timestamps,
the run renders the blocks most recent first (T3, T2, T1), and the rendered
date is the timestamp truncated at its first space. -/
theorem C6_retrieve_order (tr : Tracker) (db : TicketDB) (r1 r2 r3 : Ticket)
    (hdb : db tr.sender_id = [r1, r2, r3])
    (h12 : r1.booked_on < r2.booked_on) (h23 : r2.booked_on < r3.booked_on) :
    retrieveTicketsRun tr db =
      ((fun u => if u = tr.sender_id then [r3, r2, r1] else db u), [],
       [String.intercalate "\n"
          [retrieveHeader, renderTicket 0 r3, renderTicket 1 r2, renderTicket 2 r1]]) ∧
    (∀ d rest : String, (∀ c ∈ d.data, c ≠ ' ') →
      dateOf (d ++ " " ++ rest) = d) := by
  refine ⟨?_, dateOf_before_space⟩
  have hne : db tr.sender_id ≠ [] := by rw [hdb]; simp
  have hsort := sortDesc_three r1 r2 r3 h12 h23
  simp only [retrieveTicketsRun, if_neg hne, hdb, hsort]
  rfl

/-- Ticket fixtures with increasing booking timestamps. -/
def tkA : Ticket :=
  { pnr := "1111111111", source := some "Paris", destination := some "Berlin",
    payment := some "UPI", booked_on := "2024-01-01 08:00:00", status := "CONFIRMED" }

def tkB : Ticket :=
  { pnr := "2222222222", source := some "Lyon", destination := some "Nice",
    payment := some "card", booked_on := "2024-02-02 09:30:00", status := "CONFIRMED" }

def tkC : Ticket :=
  { pnr := "3333333333", source := some "Rome", destination := some "Milan",
    payment := some "net banking", booked_on := "2024-03-03 10:15:00", status := "CONFIRMED" }

/-- A store in which user0 holds three tickets in booking order. -/
def dbThree : TicketDB := fun u => if u = "user0" then [tkA, tkB, tkC] else []

/-- Witness for C6 on the three-ticket store. -/
theorem C6_witness :
    retrieveTicketsRun plainTracker dbThree =
      ((fun u => if u = plainTracker.sender_id then [tkC, tkB, tkA] else dbThree u), [],
       [String.intercalate "\n"
          [retrieveHeader, renderTicket 0 tkC, renderTicket 1 tkB, renderTicket 2 tkA]]) :=
  (C6_retrieve_order plainTracker dbThree tkA tkB tkC rfl
    (by rw [String.lt_iff_toList_lt]; decide)
    (by rw [String.lt_iff_toList_lt]; decide)).1

/-- Claim C7: after a retrieval for a user with at least one stored ticket,
that user's stored list has been replaced by its sort: the same records as a
multiset, now ordered by `booked_on` descending — the sort mutates the
store, it is not merely a display-time arrangement. -/
theorem C7_retrieve_sorts_in_place (tr : Tracker) (db : TicketDB)
    (h : db tr.sender_id ≠ []) :
    (retrieveTicketsRun tr db).1 tr.sender_id = sortDesc (db tr.sender_id) ∧
    List.Perm ((retrieveTicketsRun tr db).1 tr.sender_id) (db tr.sender_id) ∧
    ((retrieveTicketsRun tr db).1 tr.sender_id).Pairwise
      (fun a b => b.booked_on ≤ a.booked_on) := by
  have h1 : (retrieveTicketsRun tr db).1 tr.sender_id = sortDesc (db tr.sender_id) := by
    simp [retrieveTicketsRun, h]
  exact ⟨h1, h1 ▸ sortDesc_perm _, h1 ▸ sortDesc_pairwise _⟩

/-- Witness for C7 on the three-ticket store. -/
theorem C7_witness :
    (retrieveTicketsRun plainTracker dbThree).1 plainTracker.sender_id
        = sortDesc (dbThree plainTracker.sender_id) ∧
    List.Perm ((retrieveTicketsRun plainTracker dbThree).1 plainTracker.sender_id)
      (dbThree plainTracker.sender_id) ∧
    ((retrieveTicketsRun plainTracker dbThree).1 plainTracker.sender_id).Pairwise
      (fun a b => b.booked_on ≤ a.booked_on) :=
  C7_retrieve_sorts_in_place plainTracker dbThree (by decide)

end RasaActions
